import Mathlib

/-!
Shallow embedding of the core decision pipeline of `firewall.py`
(AI input firewall).

The two external capabilities (the Ollama classification call and the
Ollama generation call) are modelled as oracles of type
`String → Option String`: `some reply` is a successful call returning
`reply`, `none` is a call that raises an exception (timeout, unreachable
backend, ...).

Python float confidences are modelled as rationals: the only scores the
code produces are `0.0` and `1.0`, and the threshold is `0.8`, so every
comparison the code performs is exact and the rational embedding is
faithful.

The `functools.lru_cache` decorator on `classify_input_with_ollama` is
modelled by explicit state passing: a most-recently-used-first
association list keyed, as in the source, by the raw argument string.
Each cached call also reports how many external classification calls it
made (0 on a cache hit, 1 on a miss), so that claims about "the external
classifier is not invoked" are directly expressible.
-/

/-- Python `str.strip` / `\s` whitespace: space, tab, newline, carriage
return, vertical tab, form feed. -/
def pyIsSpace (c : Char) : Bool :=
  c == ' ' || c == '\t' || c == '\n' || c == '\r' || c == '\x0b' || c == '\x0c'

/-- Drop leading whitespace characters. -/
def eatSpaces : List Char → List Char
  | [] => []
  | c :: cs => if pyIsSpace c then eatSpaces cs else c :: cs

/-- Python `str.strip()`: remove leading and trailing whitespace. -/
def pyStrip (s : String) : String :=
  ⟨eatSpaces (eatSpaces s.data.reverse).reverse⟩

/-- Python `str.upper()` (ASCII case mapping, enough for the replies the
code compares against). -/
def pyUpper (s : String) : String :=
  ⟨s.data.map Char.toUpper⟩

/-- Python `str.lower()` (ASCII case mapping). -/
def pyLower (s : String) : String :=
  ⟨s.data.map Char.toLower⟩

/-- `List Char` version of "pat is a prefix of cs". -/
def startsWithL : List Char → List Char → Bool
  | [], _ => true
  | _ :: _, [] => false
  | p :: ps, c :: cs => p == c && startsWithL ps cs

/-- Python `pat in s` substring containment on character lists. -/
def containsSub (pat : List Char) : List Char → Bool
  | [] => pat.isEmpty
  | c :: cs => startsWithL pat (c :: cs) || containsSub pat cs

/-- The module-level `BLOCKLIST` set of `firewall.py`. -/
def BLOCKLIST : List String :=
  ["hack", "exploit", "malicious", "inject", "root"]

/-- `any(word in text_lower for word in BLOCKLIST)` applied to an
already-lowercased string. -/
def blocklistHit (lowered : String) : Bool :=
  BLOCKLIST.any (fun w => containsSub w.data lowered.data)

/-- Python regex `\w`: a word character (ASCII model). -/
def isWordChar (c : Char) : Bool :=
  c.isAlphanum || c == '_'

/-- Case-insensitive literal matcher: consume `pat` from the front of
`cs`, returning the remainder on success. -/
def eatCI : List Char → List Char → Option (List Char)
  | [], cs => some cs
  | _ :: _, [] => none
  | p :: ps, c :: cs => if c.toLower == p then eatCI ps cs else none

/-- Match one alternative `w1 \s+ w2` of the SQL-injection regex at the
head of `cs`, returning the remainder past the match. -/
def matchPair (w1 w2 : List Char) (cs : List Char) : Option (List Char) :=
  match eatCI w1 cs with
  | none => none
  | some rest =>
    match rest with
    | [] => none
    | c :: rest2 => if pyIsSpace c then eatCI w2 (eatSpaces rest2) else none

/-- The four alternatives of
`\b(DROP\s+TABLE|UNION\s+SELECT|INSERT\s+INTO|DELETE\s+FROM)\b`
(lower-cased, since matching is case-insensitive). -/
def sqlAlts : List (List Char × List Char) :=
  [("drop".data, "table".data), ("union".data, "select".data),
   ("insert".data, "into".data), ("delete".data, "from".data)]

/-- Does some alternative match at the head of `cs`, with the regex's
trailing word boundary satisfied? -/
def sqlMatchHere (cs : List Char) : Bool :=
  sqlAlts.any (fun p =>
    match matchPair p.1 p.2 cs with
    | none => false
    | some [] => true
    | some (c :: _) => !(isWordChar c))

/-- Scan every position of the text; `prevWord` records whether the
previous character is a word character (the leading `\b`). -/
def sqlSearchAux : Bool → List Char → Bool
  | _, [] => false
  | prevWord, c :: cs =>
    ((!prevWord) && sqlMatchHere (c :: cs)) || sqlSearchAux (isWordChar c) cs

/-- `SQL_INJECTION_REGEX.search(text)` of `firewall.py` as a boolean. -/
def sqlSearch (text : String) : Bool :=
  sqlSearchAux false text.data

/-- The dict returned by `classify_input_with_ollama`. -/
structure ClassificationResult where
  label : String
  score : ℚ
deriving DecidableEq, Repr

/-- The dict returned by `is_input_safe` / the `FirewallResponse`
fields of the `/check-input` endpoint. -/
structure Decision where
  status : String
  reason : Option String
  score : Option ℚ
  response : Option String
deriving DecidableEq, Repr

/-- `CACHE_SIZE = 1000`. -/
def CACHE_SIZE : Nat := 1000

/-- `CONFIDENCE_THRESHOLD = 0.8` (as the rational 4/5; the only scores
compared against it are 0 and 1, so the comparison outcomes agree with
the Python float comparison). -/
def CONFIDENCE_THRESHOLD : ℚ := mkRat 4 5

/-- The fixed refusal message used by every blocked decision. -/
def refusalMessage : String := "This prompt is unsafe, can't answer."

/-- State of the `lru_cache` on `classify_input_with_ollama`:
an association list, most recently used first, keyed by the raw
argument string. -/
abbrev CacheState := List (String × ClassificationResult)

/-- Cache lookup. -/
def lruGet (st : CacheState) (k : String) : Option ClassificationResult :=
  (st.find? (fun p => p.1 == k)).map Prod.snd

/-- On a hit, `lru_cache` moves the entry to the most-recent position. -/
def lruTouch (st : CacheState) (k : String) : CacheState :=
  match st.find? (fun p => p.1 == k) with
  | some e => e :: st.eraseP (fun p => p.1 == k)
  | none => st

/-- The body of `classify_input_with_ollama` (`firewall.py` lines
63-71), without the memoizing decorator: run the classification chain,
trim and upper-case the reply, score `1.0` iff the reply is `UNSAFE`;
on any exception return the fallback `UNSAFE, 1.0`. -/
def classify_input_body (oracle : String → Option String) (text : String) :
    ClassificationResult :=
  match oracle text with
  | some result =>
    let classification := pyUpper (pyStrip result)
    ⟨classification, if classification = "UNSAFE" then 1 else 0⟩
  | none => ⟨"UNSAFE", 1⟩

/-- `classify_input_with_ollama` as seen by callers: the body wrapped in
`@lru_cache(maxsize=CACHE_SIZE)`. Returns the result, the new cache
state, and the number of external classification calls performed. -/
def classify_input_with_ollama (oracle : String → Option String)
    (st : CacheState) (text : String) :
    ClassificationResult × CacheState × Nat :=
  match lruGet st text with
  | some v => (v, lruTouch st text, 0)
  | none =>
    let v := classify_input_body oracle text
    (v, ((text, v) :: st).take CACHE_SIZE, 1)

/-- `rule_based_checks` (`firewall.py` lines 73-83). -/
def rule_based_checks (text : String) : Option String :=
  let text_lower := pyLower text
  if blocklistHit text_lower then some "Blocked due to prohibited keyword."
  else if sqlSearch text then some "SQL injection attempt detected."
  else none

/-- `generate_ollama_response` (`firewall.py` lines 85-92). -/
def generate_ollama_response (gOracle : String → Option String)
    (text : String) : String :=
  match gOracle text with
  | some response =>
    let t := pyStrip response
    if t = "" then "No response generated." else t
  | none => "Error generating response."

/-- `is_input_safe` (`firewall.py` lines 94-122), threading the cache
state and counting external calls: result is
`(decision, cache after, classifier calls, generator calls)`. -/
def is_input_safe (cOracle gOracle : String → Option String)
    (st : CacheState) (text : String) :
    Decision × CacheState × Nat × Nat :=
  match rule_based_checks text with
  | some reason =>
    (⟨"blocked", some reason, none, some refusalMessage⟩, st, 0, 0)
  | none =>
    let r := classify_input_with_ollama cOracle st text
    let ai := r.1
    if ai.label = "UNSAFE" ∧ ai.score > CONFIDENCE_THRESHOLD then
      (⟨"blocked", some "Ollama classified as unsafe", some ai.score,
        some refusalMessage⟩, r.2.1, r.2.2, 0)
    else
      (⟨"allowed", none, some ai.score,
        some (generate_ollama_response gOracle text)⟩, r.2.1, r.2.2, 1)

/-- The safety gate of `is_input_safe` with the classification step
abstracted to an arbitrary classifier component (same lines 94-122;
used to state claims that quantify over the classifier's returned
label/confidence pair). -/
def is_input_safe_with (classifier : String → ClassificationResult)
    (gOracle : String → Option String) (text : String) : Decision :=
  match rule_based_checks text with
  | some reason =>
    ⟨"blocked", some reason, none, some refusalMessage⟩
  | none =>
    let ai := classifier text
    if ai.label = "UNSAFE" ∧ ai.score > CONFIDENCE_THRESHOLD then
      ⟨"blocked", some "Ollama classified as unsafe", some ai.score,
        some refusalMessage⟩
    else
      ⟨"allowed", none, some ai.score,
        some (generate_ollama_response gOracle text)⟩

/-- The `/check-input` endpoint (`firewall.py` lines 127-132): it calls
`is_input_safe` on the request text directly (the logging side effect is
elided). -/
def check_input (cOracle gOracle : String → Option String)
    (st : CacheState) (text : String) :
    Decision × CacheState × Nat × Nat :=
  is_input_safe cOracle gOracle st text

/-! ## Helper lemmas -/

theorem pyIsSpace_cases {c : Char} (h : pyIsSpace c = true) :
    c = ' ' ∨ c = '\t' ∨ c = '\n' ∨ c = '\r' ∨ c = '\x0b' ∨ c = '\x0c' := by
  have h' := h
  simp [pyIsSpace] at h'
  tauto

theorem beq_space_ne {p c : Char} (hp : pyIsSpace p = false)
    (hc : pyIsSpace c = true) : (p == c) = false := by
  by_cases h : p = c
  · subst h; rw [hp] at hc; simp at hc
  · exact beq_eq_false_iff_ne.mpr h

theorem containsSub_space_disjoint {ps cs : List Char}
    (hcs : cs.all pyIsSpace = true)
    (hps : ps.all (fun c => !(pyIsSpace c)) = true)
    (hne : ps ≠ []) :
    containsSub ps cs = false := by
  induction cs with
  | nil =>
    cases ps with
    | nil => exact absurd rfl hne
    | cons p ps' => rfl
  | cons c cs ih =>
    simp only [List.all_cons, Bool.and_eq_true] at hcs
    cases ps with
    | nil => exact absurd rfl hne
    | cons p ps' =>
      simp only [List.all_cons, Bool.and_eq_true, Bool.not_eq_true'] at hps
      simp only [containsSub, startsWithL, beq_space_ne hps.1 hcs.1,
        Bool.false_and, Bool.false_or]
      exact ih hcs.2
    
theorem blocklistHit_all_space {s : String} (h : s.data.all pyIsSpace = true) :
    blocklistHit (pyLower s) = false := by
  have h' : (s.data.map Char.toLower).all pyIsSpace = true := by
    rw [List.all_eq_true] at h ⊢
    intro c hc
    rw [List.mem_map] at hc
    obtain ⟨a, ha, rfl⟩ := hc
    have hsp := h a ha
    rcases pyIsSpace_cases hsp with rfl|rfl|rfl|rfl|rfl|rfl <;> decide
  simp only [blocklistHit, BLOCKLIST, pyLower, List.any_cons, List.any_nil,
    Bool.or_eq_false_iff]
  refine ⟨containsSub_space_disjoint h' (by decide) (by decide),
    containsSub_space_disjoint h' (by decide) (by decide),
    containsSub_space_disjoint h' (by decide) (by decide),
    containsSub_space_disjoint h' (by decide) (by decide),
    containsSub_space_disjoint h' (by decide) (by decide), trivial⟩

theorem sqlMatchHere_space {c : Char} (hc : pyIsSpace c = true)
    (cs : List Char) : sqlMatchHere (c :: cs) = false := by
  rcases pyIsSpace_cases hc with rfl|rfl|rfl|rfl|rfl|rfl <;> rfl

theorem sqlSearchAux_all_space {cs : List Char}
    (h : cs.all pyIsSpace = true) : ∀ b, sqlSearchAux b cs = false := by
  induction cs with
  | nil => intro b; rfl
  | cons c cs ih =>
    intro b
    simp only [List.all_cons, Bool.and_eq_true] at h
    simp only [sqlSearchAux, sqlMatchHere_space h.1, Bool.and_false,
      Bool.false_or]
    exact ih h.2 _

theorem rule_based_checks_all_space {text : String}
    (h : text.data.all pyIsSpace = true) : rule_based_checks text = none := by
  simp only [rule_based_checks, blocklistHit_all_space h, sqlSearch,
    sqlSearchAux_all_space h, if_false, Bool.false_eq_true]

theorem lruGet_lruTouch_self {st : CacheState} {k : String}
    {v : ClassificationResult} (h : lruGet st k = some v) :
    lruGet (lruTouch st k) k = some v := by
  unfold lruGet at h
  obtain ⟨e, he, hev⟩ := Option.map_eq_some'.mp h
  have hp := List.find?_some he
  unfold lruGet lruTouch
  simp only [he]
  rw [List.find?_cons_of_pos (p := fun q => q.1 == k) (a := e) _ hp]
  simp [hev]

theorem lruGet_insert_self (st : CacheState) (k : String)
    (v : ClassificationResult) :
    lruGet (((k, v) :: st).take CACHE_SIZE) k = some v := by
  have h1000 : CACHE_SIZE = 999 + 1 := rfl
  rw [h1000, List.take_succ_cons]
  unfold lruGet
  rw [List.find?_cons_of_pos _ (by simp)]
  rfl

theorem lruGet_after_classify (c : String → Option String) (st : CacheState)
    (text : String) :
    lruGet (classify_input_with_ollama c st text).2.1 text =
      some (classify_input_with_ollama c st text).1 := by
  rcases h : lruGet st text with _ | v
  · simp only [classify_input_with_ollama, h]
    exact lruGet_insert_self st text (classify_input_body c text)
  · simp only [classify_input_with_ollama, h]
    exact lruGet_lruTouch_self h

/-! ## Claim theorems -/

/-- C1: for every input on which the external classification call raises
a failure, `classify_input_with_ollama`'s body returns the fail-safe
`UNSAFE, 1.0`, and (for input passing the rule filter, with no stale
cache entry shadowing the call) `is_input_safe` returns a blocked
decision with confidence `1.0`: a failing classifier is never
interpreted as safe. -/
theorem classifier_failure_fail_closed (c g : String → Option String)
    (st : CacheState) (text : String) (hfail : c text = none) :
    classify_input_body c text = ⟨"UNSAFE", 1⟩ ∧
    (rule_based_checks text = none → lruGet st text = none →
      (is_input_safe c g st text).1.status = "blocked" ∧
      (is_input_safe c g st text).1.score = some 1) := by
  have hbody : classify_input_body c text = ⟨"UNSAFE", 1⟩ := by
    simp [classify_input_body, hfail]
  refine ⟨hbody, fun hr hm => ?_⟩
  simp only [is_input_safe, hr, classify_input_with_ollama, hm, hbody]
  rw [if_pos ⟨by simp, by decide⟩]
  simp

/-- Witness for C1: unreachable classifier, fresh cache, input "hello". -/
theorem classifier_failure_fail_closed_witness :
    classify_input_body (fun _ => none) "hello" = ⟨"UNSAFE", 1⟩ ∧
    (is_input_safe (fun _ => none) (fun _ => some "ok") [] "hello").1.status
      = "blocked" ∧
    (is_input_safe (fun _ => none) (fun _ => some "ok") [] "hello").1.score
      = some 1 :=
  ⟨(classifier_failure_fail_closed (fun _ => none) (fun _ => some "ok") []
      "hello" rfl).1,
   ((classifier_failure_fail_closed (fun _ => none) (fun _ => some "ok") []
      "hello" rfl).2 (by decide) rfl).1,
   ((classifier_failure_fail_closed (fun _ => none) (fun _ => some "ok") []
      "hello" rfl).2 (by decide) rfl).2⟩

/-- C2 fails on the code: the `lru_cache` decorator memoizes the whole
function body, exception branch included, so after a failed external
call the fail-safe `UNSAFE, 1.0` IS stored in the cache for that key,
the cache state changes, and a subsequent identical request is answered
from the cache with zero further external calls. -/
theorem failure_result_is_cached :
    (classify_input_with_ollama (fun _ => none) [] "hello").2.1 =
      [("hello", ⟨"UNSAFE", 1⟩)] ∧
    (classify_input_with_ollama (fun _ => none)
      (classify_input_with_ollama (fun _ => none) [] "hello").2.1
      "hello").2.2 = 0 ∧
    (classify_input_with_ollama (fun _ => none)
      (classify_input_with_ollama (fun _ => none) [] "hello").2.1
      "hello").1 = ⟨"UNSAFE", 1⟩ := by
  decide

/-- C3: any input containing a denylist term (case-insensitively) or
matching the SQL-injection pattern is blocked with zero external calls
(neither classifier nor generator) and an unchanged cache. -/
theorem rule_block_no_external_calls (c g : String → Option String)
    (st : CacheState) (text : String)
    (h : blocklistHit (pyLower text) = true ∨ sqlSearch text = true) :
    (is_input_safe c g st text).1.status = "blocked" ∧
    (is_input_safe c g st text).2.1 = st ∧
    (is_input_safe c g st text).2.2.1 = 0 ∧
    (is_input_safe c g st text).2.2.2 = 0 := by
  obtain ⟨r, hr⟩ : ∃ r, rule_based_checks text = some r := by
    simp only [rule_based_checks]
    rcases h with h | h
    · exact ⟨_, by rw [if_pos h]⟩
    · by_cases hb : blocklistHit (pyLower text) = true
      · exact ⟨_, by rw [if_pos hb]⟩
      · exact ⟨_, by rw [if_neg hb, if_pos h]⟩
  simp only [is_input_safe, hr]
  simp

/-- Witness for C3: the spec scenario "please DROP TABLE users" is
blocked with zero external calls. -/
theorem rule_block_no_external_calls_witness :
    (is_input_safe (fun _ => none) (fun _ => none) []
      "please DROP TABLE users").1.status = "blocked" ∧
    (is_input_safe (fun _ => none) (fun _ => none) []
      "please DROP TABLE users").2.2.1 = 0 ∧
    (is_input_safe (fun _ => none) (fun _ => none) []
      "please DROP TABLE users").2.2.2 = 0 :=
  ⟨(rule_block_no_external_calls (fun _ => none) (fun _ => none) []
      "please DROP TABLE users" (Or.inr (by decide))).1,
   (rule_block_no_external_calls (fun _ => none) (fun _ => none) []
      "please DROP TABLE users" (Or.inr (by decide))).2.2.1,
   (rule_block_no_external_calls (fun _ => none) (fun _ => none) []
      "please DROP TABLE users" (Or.inr (by decide))).2.2.2⟩

/-- C4: with the classification step abstracted to an arbitrary
classifier component, the gate of `is_input_safe` blocks exactly when
the classifier's label is `UNSAFE` with confidence strictly above the
threshold; confidence at or below the threshold (even with an `UNSAFE`
label) proceeds to generation and is allowed. -/
theorem threshold_gate (f : String → ClassificationResult)
    (g : String → Option String) (text : String)
    (hr : rule_based_checks text = none) :
    ((f text).label = "UNSAFE" →
      (f text).score > CONFIDENCE_THRESHOLD →
      (is_input_safe_with f g text).status = "blocked") ∧
    ((f text).score ≤ CONFIDENCE_THRESHOLD →
      (is_input_safe_with f g text).status = "allowed" ∧
      (is_input_safe_with f g text).response =
        some (generate_ollama_response g text)) := by
  simp only [is_input_safe_with, hr]
  constructor
  · intro hl hs
    rw [if_pos ⟨hl, hs⟩]
  · intro hs
    rw [if_neg (fun hcond => absurd hcond.2 (not_lt.mpr hs))]
    exact ⟨rfl, rfl⟩

/-- Witness for C4: over-threshold UNSAFE (0.9) blocks, sub-threshold
UNSAFE (0.5) is allowed, on input "hello" which passes the rules. -/
theorem threshold_gate_witness :
    (is_input_safe_with (fun _ => ⟨"UNSAFE", mkRat 9 10⟩)
      (fun _ => some "ok") "hello").status = "blocked" ∧
    (is_input_safe_with (fun _ => ⟨"UNSAFE", mkRat 1 2⟩)
      (fun _ => some "ok") "hello").status = "allowed" :=
  ⟨(threshold_gate (fun _ => ⟨"UNSAFE", mkRat 9 10⟩) (fun _ => some "ok")
      "hello" (by decide)).1 rfl (by decide),
   ((threshold_gate (fun _ => ⟨"UNSAFE", mkRat 1 2⟩) (fun _ => some "ok")
      "hello" (by decide)).2 (by decide)).1⟩

/-- C5: a blocked decision always carries the fixed refusal message and
never the generator's output; an allowed decision always carries a
response (the generator's reply, or the fixed error placeholder when
generation failed); and the status never depends on the generator, so a
generation failure cannot downgrade an allowed decision to blocked. -/
theorem decision_response_invariant (c g g' : String → Option String)
    (st : CacheState) (text : String) :
    ((is_input_safe c g st text).1.status = "blocked" →
      (is_input_safe c g st text).1.response = some refusalMessage) ∧
    ((is_input_safe c g st text).1.status = "allowed" →
      (is_input_safe c g st text).1.response =
        some (generate_ollama_response g text)) ∧
    (g text = none →
      generate_ollama_response g text = "Error generating response.") ∧
    (is_input_safe c g st text).1.status =
      (is_input_safe c g' st text).1.status := by
  have hsplit : ∀ gg : String → Option String,
      (is_input_safe c gg st text).1.status = "blocked" ∧
        (is_input_safe c gg st text).1.response = some refusalMessage ∨
      (is_input_safe c gg st text).1.status = "allowed" ∧
        (is_input_safe c gg st text).1.response =
          some (generate_ollama_response gg text) := by
    intro gg
    rcases hrc : rule_based_checks text with _ | r
    · simp only [is_input_safe, hrc]
      by_cases hcond : ((classify_input_with_ollama c st text).1.label =
          "UNSAFE" ∧
          (classify_input_with_ollama c st text).1.score >
            CONFIDENCE_THRESHOLD)
      · left; rw [if_pos hcond]; exact ⟨by simp, by simp⟩
      · right; rw [if_neg hcond]; exact ⟨by simp, by simp⟩
    · simp only [is_input_safe, hrc]
      left; exact ⟨by simp, by simp⟩
  refine ⟨?_, ?_, fun hg => by simp [generate_ollama_response, hg], ?_⟩
  · intro hb
    rcases hsplit g with ⟨_, h2⟩ | ⟨h1, _⟩
    · exact h2
    · rw [hb] at h1; exact absurd h1 (by decide)
  · intro ha
    rcases hsplit g with ⟨h1, _⟩ | ⟨_, h2⟩
    · rw [ha] at h1; exact absurd h1 (by decide)
    · exact h2
  · rcases hrc : rule_based_checks text with _ | r
    · simp only [is_input_safe, hrc]
      by_cases hcond : ((classify_input_with_ollama c st text).1.label =
          "UNSAFE" ∧
          (classify_input_with_ollama c st text).1.score >
            CONFIDENCE_THRESHOLD)
      · rw [if_pos hcond, if_pos hcond]
      · rw [if_neg hcond, if_neg hcond]
    · simp [is_input_safe, hrc]

/-- Witness for C5: a blocked decision (failing classifier) carries the
fixed refusal message. -/
theorem decision_response_invariant_witness :
    (is_input_safe (fun _ => none) (fun _ => some "ok") []
      "hello").1.response = some refusalMessage :=
  (decision_response_invariant (fun _ => none) (fun _ => some "ok")
    (fun _ => some "ok") [] "hello").1 (by decide)

/-- C6 fails on the code: a successful external call returning the
malformed reply "MAYBE" is NOT mapped to the fail-safe `UNSAFE, 1.0`;
it yields label "MAYBE" with score 0.0, and `is_input_safe` proceeds to
generation and returns "allowed", not "blocked". -/
theorem malformed_reply_not_fail_closed :
    classify_input_body (fun _ => some "MAYBE") "hello" = ⟨"MAYBE", 0⟩ ∧
    classify_input_body (fun _ => some "MAYBE") "hello" ≠ ⟨"UNSAFE", 1⟩ ∧
    (is_input_safe (fun _ => some "MAYBE") (fun _ => some "ok") []
      "hello").1.status ≠ "blocked" ∧
    (is_input_safe (fun _ => some "MAYBE") (fun _ => some "ok") []
      "hello").1.status = "allowed" := by
  decide

/-- C6 amended: a successful call whose reply, after trimming and
upper-casing, is neither "SAFE" nor "UNSAFE" is not treated as a
failure: the classification keeps the malformed label with confidence
0.0, and (rules passing, cache miss) `is_input_safe` proceeds to
generation and returns an allowed decision — the code fails open on
malformed responses. -/
theorem malformed_reply_fails_open (c g : String → Option String)
    (st : CacheState) (text reply : String)
    (hok : c text = some reply)
    (_hmalS : pyUpper (pyStrip reply) ≠ "SAFE")
    (hmalU : pyUpper (pyStrip reply) ≠ "UNSAFE")
    (hr : rule_based_checks text = none)
    (hm : lruGet st text = none) :
    classify_input_body c text = ⟨pyUpper (pyStrip reply), 0⟩ ∧
    (is_input_safe c g st text).1.status = "allowed" ∧
    (is_input_safe c g st text).1.response =
      some (generate_ollama_response g text) := by
  have hbody : classify_input_body c text = ⟨pyUpper (pyStrip reply), 0⟩ := by
    simp only [classify_input_body, hok]
    rw [if_neg hmalU]
  refine ⟨hbody, ?_, ?_⟩ <;>
  · simp only [is_input_safe, hr, classify_input_with_ollama, hm, hbody]
    rw [if_neg (fun hcond => hmalU hcond.1)]

/-- Witness for C6 amended: reply " maybe " (trims and upper-cases to
"MAYBE") on input "hi" yields an allowed decision. -/
theorem malformed_reply_fails_open_witness :
    classify_input_body (fun _ => some " maybe ") "hi" =
      ⟨pyUpper (pyStrip " maybe "), 0⟩ ∧
    (is_input_safe (fun _ => some " maybe ") (fun _ => some "ok") []
      "hi").1.status = "allowed" :=
  ⟨(malformed_reply_fails_open (fun _ => some " maybe ") (fun _ => some "ok")
      [] "hi" " maybe " rfl (by decide) (by decide) (by decide) rfl).1,
   (malformed_reply_fails_open (fun _ => some " maybe ") (fun _ => some "ok")
      [] "hi" " maybe " rfl (by decide) (by decide) (by decide) rfl).2.1⟩

/-- C7 fails on the code: the `lru_cache` key is the raw argument
string, not a normalized form. After classifying "Hi", the
differently-cased "hi" is a cache miss and triggers a second external
call. -/
theorem cache_key_not_normalized :
    lruGet (classify_input_with_ollama (fun _ => some "SAFE") []
      "Hi").2.1 "hi" = none ∧
    (classify_input_with_ollama (fun _ => some "SAFE")
      (classify_input_with_ollama (fun _ => some "SAFE") [] "Hi").2.1
      "hi").2.2 = 1 := by
  decide

/-- C7 amended: the cache is keyed by the raw input text exactly as
passed to classification (no case folding or trimming): repeating the
exact same raw input hits the cache entry written by the first call, so
the second classification makes no external call and returns the same
result; differently-cased inputs occupy distinct entries. -/
theorem cache_raw_key_repeat (c : String → Option String)
    (st : CacheState) (text : String) :
    (classify_input_with_ollama c
      (classify_input_with_ollama c st text).2.1 text).1 =
      (classify_input_with_ollama c st text).1 ∧
    (classify_input_with_ollama c
      (classify_input_with_ollama c st text).2.1 text).2.2 = 0 := by
  have h := lruGet_after_classify c st text
  constructor <;>
    · rw [classify_input_with_ollama.eq_def]
      simp only [h]

/-- C8 fails on the code: the `/check-input` endpoint performs no
empty/whitespace validation. A whitespace-only input produces a
Decision, the classifier is invoked on it (one external call), and the
outcome depends on the classifier's verdict. -/
theorem whitespace_input_reaches_classifier :
    (check_input (fun _ => none) (fun _ => some "ok") [] " ").1.status
      = "blocked" ∧
    (check_input (fun _ => none) (fun _ => some "ok") [] " ").2.2.1 = 1 ∧
    (check_input (fun _ => some "SAFE") (fun _ => some "ok") []
      " ").1.status = "allowed" := by
  decide

/-- C8 amended: empty or whitespace-only input is passed straight into
the pipeline: it matches no rule, and (on a fresh cache key) the
external classifier is invoked on it. -/
theorem whitespace_input_classified (c g : String → Option String)
    (st : CacheState) (text : String)
    (hws : text.data.all pyIsSpace = true)
    (hm : lruGet st text = none) :
    rule_based_checks text = none ∧
    (check_input c g st text).2.2.1 = 1 := by
  have hr := rule_based_checks_all_space hws
  refine ⟨hr, ?_⟩
  simp only [check_input, is_input_safe, hr, classify_input_with_ollama, hm]
  by_cases hcond : ((classify_input_body c text).label = "UNSAFE" ∧
      (classify_input_body c text).score > CONFIDENCE_THRESHOLD)
  · rw [if_pos hcond]
  · rw [if_neg hcond]

/-- Witness for C8 amended: the single-space input is classified. -/
theorem whitespace_input_classified_witness :
    rule_based_checks " " = none ∧
    (check_input (fun _ => some "SAFE") (fun _ => some "ok") []
      " ").2.2.1 = 1 :=
  whitespace_input_classified (fun _ => some "SAFE") (fun _ => some "ok")
    [] " " (by decide) rfl

/-- C9 fails on the code: on "hack DROP TABLE x" both a denylist term
and the SQL-injection pattern match, yet `rule_based_checks` returns
only the fixed keyword message — the very same reason it returns for
"hack", which has no pattern match — so the returned reason cannot be
reporting all matches found. -/
theorem multi_match_single_reason :
    blocklistHit (pyLower "hack DROP TABLE x") = true ∧
    sqlSearch "hack DROP TABLE x" = true ∧
    rule_based_checks "hack DROP TABLE x" =
      some "Blocked due to prohibited keyword." ∧
    sqlSearch "hack" = false ∧
    rule_based_checks "hack" = rule_based_checks "hack DROP TABLE x" := by
  decide

/-- C9 amended: `rule_based_checks` reports a single fixed reason for
the first matching category only: the keyword message whenever any
denylist term matches (regardless of further matches), otherwise the
SQL-injection message when the pattern matches; individual matches are
never enumerated. -/
theorem rule_reason_first_category (text : String) :
    (blocklistHit (pyLower text) = true →
      rule_based_checks text = some "Blocked due to prohibited keyword.") ∧
    (blocklistHit (pyLower text) = false → sqlSearch text = true →
      rule_based_checks text = some "SQL injection attempt detected.") := by
  constructor
  · intro h
    simp only [rule_based_checks]
    rw [if_pos h]
  · intro hb hs
    simp only [rule_based_checks]
    rw [if_neg (by simp [hb]), if_pos hs]

/-- Witness for C9 amended: keyword category wins on
"hack DROP TABLE x"; pattern category reported on
"please DROP TABLE users". -/
theorem rule_reason_first_category_witness :
    rule_based_checks "hack DROP TABLE x" =
      some "Blocked due to prohibited keyword." ∧
    rule_based_checks "please DROP TABLE users" =
      some "SQL injection attempt detected." :=
  ⟨(rule_reason_first_category "hack DROP TABLE x").1 (by decide),
   (rule_reason_first_category "please DROP TABLE users").2 (by decide)
     (by decide)⟩

/-- C10: for every oracle and input, the classification score is
exactly 0 or 1; it is 1 precisely when the label is "UNSAFE" (failure
fallback included); hence every UNSAFE classification strictly exceeds
the configured threshold 0.8. -/
theorem classification_score_binary (c : String → Option String)
    (text : String) :
    ((classify_input_body c text).score = 0 ∨
      (classify_input_body c text).score = 1) ∧
    ((classify_input_body c text).score = 1 ↔
      (classify_input_body c text).label = "UNSAFE") ∧
    ((classify_input_body c text).label = "UNSAFE" →
      (classify_input_body c text).score > CONFIDENCE_THRESHOLD) := by
  rcases hc : c text with _ | s
  · simp only [classify_input_body, hc]
    exact ⟨Or.inr (by simp), by simp, fun _ => by decide⟩
  · simp only [classify_input_body, hc]
    by_cases h : pyUpper (pyStrip s) = "UNSAFE"
    · rw [if_pos h]
      exact ⟨Or.inr (by simp), by simp [h], fun _ => by decide⟩
    · rw [if_neg h]
      refine ⟨Or.inl rfl, ?_, fun hl => absurd hl h⟩
      constructor
      · intro h01
        exact absurd h01 (by decide)
      · intro hl
        exact absurd hl h

/-- Witness for C10: the failure fallback has label "UNSAFE" and its
score exceeds the threshold. -/
theorem classification_score_binary_witness :
    (classify_input_body (fun _ => none) "x").score > CONFIDENCE_THRESHOLD :=
  (classification_score_binary (fun _ => none) "x").2.2 rfl
